import Mathlib

/-!
Verification of the Auto-Sales-Classification-Dashboard core pipeline
(filter → aggregate → render), shallowly embedded from `app/app.py`,
`app/callbacks.py` and `app/components.py`.

A pandas DataFrame row becomes a `Row`; a DataFrame becomes a `List Row`.
Numeric columns are modelled as rationals (the claims under scrutiny are about
exact arithmetic, not float representation); a pandas NaN produced by taking
the mean of an empty column is modelled as `none : Option ℚ`.
-/

namespace AutoSales

/-- One row of the processed dataset (`cleaned_data.csv`): the seven schema
columns used by the dashboard. -/
structure Row where
  Manufacturer : String
  Region : String
  SalesVolume : ℚ
  Price_k : ℚ
  Is_Success : ℚ
  TimePeriod : String
  Sales_Category : String
deriving DecidableEq

/-- pandas `Series.sum()`: 0 on an empty column. -/
def psum (l : List ℚ) : ℚ := l.sum

/-- pandas `Series.mean()`: NaN (modelled `none`) on an empty column,
otherwise sum divided by length. -/
def pmean (l : List ℚ) : Option ℚ :=
  if l.length = 0 then none else some (l.sum / l.length)

/-- Round half to even (banker's rounding), the rounding mode of numpy
`.round` and of Python's `format(x, '.1f')` / `format(x, ',.0f')`:
on a normalized rational `num/den` (`den > 0`), compare twice the remainder
of the floor division with the denominator. -/
def roundHalfEven (q : ℚ) : ℤ :=
  let fl := Int.fdiv q.num q.den
  let rem := q.num - q.den * fl
  if 2 * rem < (q.den : ℤ) then fl
  else if (q.den : ℤ) < 2 * rem then fl + 1
  else if fl % 2 = 0 then fl else fl + 1

/-- numpy `x.round(1)`: round half to even at one decimal place. -/
def round1q (q : ℚ) : ℚ := (roundHalfEven (q * 10) : ℚ) / 10

/-- numpy `.round(1)` on a possibly-NaN value: NaN propagates. -/
def round1 (x : Option ℚ) : Option ℚ := x.map round1q

/-- Three-digit zero-padded group, for the thousands-separated format. -/
def pad3 (n : ℕ) : String :=
  if n < 10 then "00" ++ toString n
  else if n < 100 then "0" ++ toString n
  else toString n

/-- Digit groups of three separated by commas (`1234567 ↦ "1,234,567"`). -/
def commaGroups (n : ℕ) : String :=
  if _h : n < 1000 then toString n
  else commaGroups (n / 1000) ++ "," ++ pad3 (n % 1000)
termination_by n
decreasing_by exact Nat.div_lt_self (by omega) (by omega)

/-- Python format spec `,.0f`: round half to even to an integer and insert
thousands separators. -/
def fmtThousands (q : ℚ) : String :=
  let n := roundHalfEven q
  (if n < 0 then "-" else "") ++ commaGroups n.natAbs

/-- Render a finite value with exactly one decimal digit, rounding half to
even; this is what Python's format spec `.1f` does, and also what `str()` /
`repr()` print for a float that was already rounded to one decimal place.
(The sign of a negative value that rounds to zero is not modelled; all values
rendered by the dashboard are non-negative.) -/
def fmt1 (q : ℚ) : String :=
  let n := roundHalfEven (q * 10)
  (if n < 0 then "-" else "") ++ toString (n.natAbs / 10) ++ "." ++ toString (n.natAbs % 10)

/-- Python string conversion of a possibly-NaN float: NaN prints `"nan"`. -/
def fmtFloat1 (x : Option ℚ) : String :=
  match x with
  | none => "nan"
  | some q => fmt1 q

/-- Python truthiness of the `selected_category` callback value: `None` and
the empty string are falsy, every other string is truthy. -/
def truthy : Option String → Bool
  | none => false
  | some s => decide (s ≠ "")

/-- The filter step of `update_dashboard` (callbacks.py lines 39-46):
keep the rows whose `Manufacturer` is in `selected_manufacturers` and whose
`Region` is in `selected_regions` (pandas `.isin`), then, only when
`selected_category` is truthy and different from `"All"`, keep the rows whose
`Sales_Category` equals the selected category. -/
def filterStep (df : List Row) (selected_manufacturers selected_regions : List String)
    (selected_category : Option String) : List Row :=
  let filtered_df := df.filter
    (fun r => decide (r.Manufacturer ∈ selected_manufacturers) &&
      decide (r.Region ∈ selected_regions))
  if truthy selected_category && decide (selected_category ≠ some "All") then
    filtered_df.filter (fun r => decide (some r.Sales_Category = selected_category))
  else
    filtered_df

/-- pandas `df.groupby(key)[val].sum().reset_index()`: one output row per
distinct key value, keys sorted ascending (groupby's default `sort=True`),
each carrying the sum of `val` over the rows with that key. -/
def groupbySum (df : List Row) (key : Row → String) (val : Row → ℚ) : List (String × ℚ) :=
  (List.insertionSort (fun a b => a ≤ b) ((df.map key).dedup)).map
    (fun k => (k, ((df.filter (fun r => decide (key r = k))).map val).sum))

/-- pandas `df.groupby(key)[val].mean().reset_index()`: like `groupbySum`
with the group mean (every group is non-empty by construction). -/
def groupbyMean (df : List Row) (key : Row → String) (val : Row → ℚ) : List (String × ℚ) :=
  (List.insertionSort (fun a b => a ≤ b) ((df.map key).dedup)).map
    (fun k =>
      let g := df.filter (fun r => decide (key r = k))
      (k, (g.map val).sum / g.length))

/-- Lexicographic order on the pair key `(Region, Manufacturer)`, the order
pandas sorts a two-column groupby by. -/
def pairLe (a b : String × String) : Prop :=
  a.1 < b.1 ∨ (a.1 = b.1 ∧ a.2 ≤ b.2)

instance : DecidableRel pairLe :=
  fun a b => inferInstanceAs (Decidable (a.1 < b.1 ∨ (a.1 = b.1 ∧ a.2 ≤ b.2)))

/-- pandas `df.groupby([k₁, k₂])[val].sum().reset_index()`: one output row per
distinct key pair present (a sparse table, absent pairs are not zero-filled). -/
def groupbySum2 (df : List Row) (key : Row → String × String) (val : Row → ℚ) :
    List ((String × String) × ℚ) :=
  (List.insertionSort pairLe ((df.map key).dedup)).map
    (fun k => (k, ((df.filter (fun r => decide (key r = k))).map val).sum))

/-- pandas `Series.map({1: 'Successful Sales', 0: 'Unsuccessful Sales'})`:
dictionary lookup, values outside the dictionary become NaN (`none`). -/
def mapSuccessLabel (q : ℚ) : Option String :=
  if q = 1 then some "Successful Sales"
  else if q = 0 then some "Unsuccessful Sales"
  else none

/-- pandas `Series.value_counts()`: the count of each distinct value (NaN
entries were already dropped by `filterMap`), sorted by count descending.
pandas leaves the relative order of tied counts to an unstable sort; the
embedding fixes it to the stable insertion-sort order. -/
def value_counts (l : List String) : List (String × ℕ) :=
  List.insertionSort (fun a b => b.2 ≤ a.2)
    (l.dedup.map (fun s => (s, (l.filter (fun x => decide (x = s))).length)))

/-- A renderable figure descriptor: `plotly` figures reduced to the data that
the dashboard computes for them (title, series, and for the pie chart the
`color_discrete_sequence`). -/
inductive Fig where
  | empty (title : String)
  | line (title : String) (data : List (String × ℚ))
  | bar (title : String) (data : List (String × ℚ))
  | heat (title : String) (data : List ((String × String) × ℚ))
  | pie (title : String) (slices : List (String × ℕ)) (colors : List String)
deriving DecidableEq

/-- The placeholder figure returned for every chart when the filtered
DataFrame is empty (callbacks.py line 50). -/
def noDataFig : Fig := Fig.empty "No data to display based on filters."

/-- The label → color pairing that plotly express produces for a pie chart:
the colors of `color_discrete_sequence` are assigned to the slices
positionally, in the row order of the data frame passed to `px.pie`. -/
def pieAssignment : Fig → List (String × String)
  | Fig.pie _ slices colors => (slices.map Prod.fst).zip colors
  | _ => []

/-- `total_sales` (callbacks.py line 59): sum of the `SalesVolume` column. -/
def total_sales (df : List Row) : ℚ := psum (df.map (fun r => r.SalesVolume))

/-- `avg_price` (callbacks.py line 60): mean of `Price_k`, rounded half to
even at one decimal place. -/
def avg_price (df : List Row) : Option ℚ :=
  round1 (pmean (df.map (fun r => r.Price_k)))

/-- `success_rate` (callbacks.py line 61): mean of `Is_Success` times 100. -/
def success_rate (df : List Row) : Option ℚ :=
  (pmean (df.map (fun r => r.Is_Success))).map (fun m => m * 100)

/-- `trend_data` (callbacks.py line 70): `SalesVolume` summed by `TimePeriod`. -/
def trend_data (df : List Row) : List (String × ℚ) :=
  groupbySum df (fun r => r.TimePeriod) (fun r => r.SalesVolume)

/-- `category_data` (callbacks.py line 83): `Price_k` averaged by
`Sales_Category`. -/
def category_data (df : List Row) : List (String × ℚ) :=
  groupbyMean df (fun r => r.Sales_Category) (fun r => r.Price_k)

/-- `heatmap_data` (callbacks.py line 96): `SalesVolume` summed by the pair
`(Region, Manufacturer)`. -/
def heatmap_data (df : List Row) : List ((String × String) × ℚ) :=
  groupbySum2 df (fun r => (r.Region, r.Manufacturer)) (fun r => r.SalesVolume)

/-- `success_counts` (callbacks.py line 115): `Is_Success` mapped through the
label dictionary, NaN dropped, counted by `value_counts`. -/
def success_counts (df : List Row) : List (String × ℕ) :=
  value_counts ((df.map (fun r => r.Is_Success)).filterMap mapSuccessLabel)

/-- The seven outputs of the `update_dashboard` callback: the three KPI text
children and the four figures. -/
structure DashOutput where
  kpi_sales : String
  kpi_price : String
  kpi_success : String
  fig_trend : Fig
  fig_category : Fig
  fig_heatmap : Fig
  fig_success : Fig
deriving DecidableEq

/-- The `update_dashboard` callback (callbacks.py lines 33-131): filter the
dataset, return the placeholder outputs when the filtered DataFrame is empty,
otherwise recompute the three KPIs and the four figures. -/
def update_dashboard (df : List Row) (selected_manufacturers selected_regions : List String)
    (selected_category : Option String) : DashOutput :=
  let filtered_df := filterStep df selected_manufacturers selected_regions selected_category
  if filtered_df.isEmpty then
    { kpi_sales := "0", kpi_price := "$0k", kpi_success := "0.0%",
      fig_trend := noDataFig, fig_category := noDataFig,
      fig_heatmap := noDataFig, fig_success := noDataFig }
  else
    { kpi_sales := fmtThousands (total_sales filtered_df),
      kpi_price := "$" ++ fmtFloat1 (avg_price filtered_df) ++ "k",
      kpi_success := fmtFloat1 (success_rate filtered_df) ++ "%",
      fig_trend := Fig.line "Sales Volume Trend Over Time" (trend_data filtered_df),
      fig_category := Fig.bar "Average Price by Sales Category (k)" (category_data filtered_df),
      fig_heatmap := Fig.heat "Sales Volume Heatmap by Region and Manufacturer"
        (heatmap_data filtered_df),
      fig_success := Fig.pie "Sales Classification Distribution (Target Variable)"
        (success_counts filtered_df) ["#4CAF50", "#F44336"] }

/-- The fallback DataFrame built in `app.py` lines 26-29 when the data files
are missing: zero rows, all seven schema columns present (in this typed
embedding a dataset is a list of complete `Row`s, so schema conformance is
intrinsic and the fallback is the empty list). -/
def empty_fallback_df : List Row := []

/-- `app.py` lines 17-29: the module-level dataset load; `none` models a
`FileNotFoundError`, in which case the empty fallback DataFrame is
substituted and the process continues. -/
def startup_df (loaded : Option (List Row)) : List Row :=
  match loaded with
  | some df => df
  | none => empty_fallback_df

/-- `create_kpi_cards` (components.py lines 62-93): the three KPI texts of the
static layout, computed from the full dataset with no empty-DataFrame guard. -/
def create_kpi_cards (df : List Row) : String × String × String :=
  ( fmtThousands (psum (df.map (fun r => r.SalesVolume))),
    "$" ++ fmtFloat1 (round1 (pmean (df.map (fun r => r.Price_k)))) ++ "k",
    fmtFloat1 ((pmean (df.map (fun r => r.Is_Success))).map (fun m => m * 100)) ++ "%" )

/-- Sample dataset of the design's test scenario: four rows. -/
def rowT1 : Row := ⟨"Toyota", "North", 100, 20, 1, "2020-Q1", "High"⟩

def rowT2 : Row := ⟨"Toyota", "South", 50, 15, 0, "2020-Q1", "Low"⟩

def rowH1 : Row := ⟨"Honda", "North", 80, 18, 1, "2020-Q2", "Medium"⟩

def rowH2 : Row := ⟨"Honda", "South", 20, 10, 0, "2020-Q2", "Low"⟩

def sampleDF : List Row := [rowT1, rowT2, rowH1, rowH2]

/-- Dataset exhibiting the pie-chart color bug: two unsuccessful rows and one
successful row, all passing the filters. -/
def bugDF : List Row :=
  [⟨"Toyota", "North", 10, 20, 0, "2020-Q1", "High"⟩,
   ⟨"Toyota", "North", 12, 21, 0, "2020-Q1", "High"⟩,
   ⟨"Toyota", "North", 11, 22, 1, "2020-Q1", "High"⟩]

end AutoSales

namespace AutoSales

/-! Helper lemmas shared by the claim theorems. -/

/-- Banker's rounding of zero is zero. -/
theorem roundHalfEven_zero : roundHalfEven 0 = 0 := by simp [roundHalfEven]

/-- Comma grouping of zero. -/
theorem commaGroups_zero : commaGroups 0 = "0" := by
  rw [commaGroups]
  rfl

/-- The thousands-separated rendering of 0 is `"0"`. -/
theorem fmtThousands_zero : fmtThousands 0 = "0" := by
  simp [fmtThousands, roundHalfEven_zero, commaGroups_zero]

/-- The static KPI cards computed from the empty fallback DataFrame: the sum
of an empty column is 0, but the mean of an empty column is NaN, so the
average-price and success-rate cards render `"$nank"` and `"nan%"`. -/
theorem create_kpi_cards_empty :
    create_kpi_cards ([] : List Row) = ("0", "$nank", "nan%") := by
  simp [create_kpi_cards, psum, pmean, fmtFloat1, round1, fmtThousands_zero]

/-- Projecting the keys back out of a keyed table. -/
theorem map_fst_map_pair {β : Type} (L : List String) (g : String → β) :
    ((L.map (fun k => (k, g k))).map Prod.fst) = L := by
  induction L with
  | nil => rfl
  | cons a L ih => simp [ih]

/-- Projecting the values back out of a keyed table. -/
theorem map_snd_map_pair {β : Type} (L : List String) (g : String → β) :
    ((L.map (fun k => (k, g k))).map Prod.snd) = L.map g := by
  induction L with
  | nil => rfl
  | cons a L ih => simp [ih]

/-- The key column of a grouped sum is the sorted deduplicated key list. -/
theorem groupbySum_keys (df : List Row) (key : Row → String) (val : Row → ℚ) :
    (groupbySum df key val).map Prod.fst
      = List.insertionSort (fun a b => a ≤ b) ((df.map key).dedup) := by
  simp only [groupbySum]
  exact map_fst_map_pair _ _

/-- A grouped sum has no duplicate keys. -/
theorem groupbySum_keys_nodup (df : List Row) (key : Row → String) (val : Row → ℚ) :
    ((groupbySum df key val).map Prod.fst).Nodup := by
  rw [groupbySum_keys]
  exact ((List.perm_insertionSort _ _).nodup_iff).mpr (List.nodup_dedup _)

/-- A key appears in a grouped sum iff some row carries it. -/
theorem groupbySum_keys_mem (df : List Row) (key : Row → String) (val : Row → ℚ)
    (k : String) :
    k ∈ (groupbySum df key val).map Prod.fst ↔ ∃ r ∈ df, key r = k := by
  rw [groupbySum_keys, (List.perm_insertionSort _ _).mem_iff, List.mem_dedup, List.mem_map]

/-- Every row of a grouped sum carries the sum of `val` over its group. -/
theorem groupbySum_values (df : List Row) (key : Row → String) (val : Row → ℚ)
    (p : String × ℚ) (hp : p ∈ groupbySum df key val) :
    p.2 = ((df.filter (fun r => decide (key r = p.1))).map val).sum := by
  simp only [groupbySum, List.mem_map] at hp
  obtain ⟨k, _, rfl⟩ := hp
  rfl

/-- The key column of a grouped sum is sorted ascending. -/
theorem groupbySum_sorted (df : List Row) (key : Row → String) (val : Row → ℚ) :
    ((groupbySum df key val).map Prod.fst).Sorted (fun a b => a ≤ b) := by
  rw [groupbySum_keys]
  exact List.sorted_insertionSort _ _

/-- Summing `if k0 = k then v else 0` over a duplicate-free key list that
contains `k0` yields `v`. -/
theorem sum_map_ite {K : List String} {k0 : String} (v : ℚ) (hK : K.Nodup) (hk : k0 ∈ K) :
    (K.map (fun k => if k0 = k then v else 0)).sum = v := by
  induction K with
  | nil => cases hk
  | cons a K ih =>
    rcases List.mem_cons.mp hk with h | h
    · subst h
      have hz : (K.map (fun k => if k0 = k then v else 0)).sum = 0 := by
        apply List.sum_eq_zero
        intro x hx
        simp only [List.mem_map] at hx
        obtain ⟨k, hkK, rfl⟩ := hx
        have hne : k0 ≠ k := by
          rintro rfl
          exact (List.nodup_cons.mp hK).1 hkK
        simp [hne]
      simp [hz]
    · have hne : k0 ≠ a := by
        rintro rfl
        exact (List.nodup_cons.mp hK).1 h
      simp only [List.map_cons, List.sum_cons, if_neg hne, zero_add]
      exact ih (List.nodup_cons.mp hK).2 h

/-- Grouping is a partition: summing the per-group sums over any
duplicate-free key list covering all rows returns the total sum. -/
theorem filter_sum_partition (l : List Row) (key : Row → String) (val : Row → ℚ)
    (K : List String) (hK : K.Nodup) (hsub : ∀ r ∈ l, key r ∈ K) :
    (K.map (fun k => ((l.filter (fun r => decide (key r = k))).map val).sum)).sum
      = (l.map val).sum := by
  induction l with
  | nil => simp
  | cons a l ih =>
    have hstep : ∀ k : String,
        (((a :: l).filter (fun r => decide (key r = k))).map val).sum
          = (if key a = k then val a else 0)
            + ((l.filter (fun r => decide (key r = k))).map val).sum := by
      intro k
      by_cases h : key a = k <;> simp [List.filter_cons, h]
    calc (K.map (fun k => (((a :: l).filter (fun r => decide (key r = k))).map val).sum)).sum
        = (K.map (fun k => (if key a = k then val a else 0)
            + ((l.filter (fun r => decide (key r = k))).map val).sum)).sum :=
          congrArg List.sum (List.map_congr_left (fun k _ => hstep k))
      _ = (K.map (fun k => if key a = k then val a else 0)).sum
            + (K.map (fun k => ((l.filter (fun r => decide (key r = k))).map val).sum)).sum := by
          rw [List.sum_map_add]
      _ = val a + (l.map val).sum := by
          rw [sum_map_ite (val a) hK (hsub a (List.mem_cons_self a l)),
            ih (fun r hr => hsub r (List.mem_cons_of_mem a hr))]
      _ = ((a :: l).map val).sum := by simp

/-- The value column of a grouped sum totals to the ungrouped column sum. -/
theorem groupbySum_total (df : List Row) (key : Row → String) (val : Row → ℚ) :
    ((groupbySum df key val).map Prod.snd).sum = (df.map val).sum := by
  have h1 : (groupbySum df key val).map Prod.snd
      = (List.insertionSort (fun a b => a ≤ b) ((df.map key).dedup)).map
          (fun k => ((df.filter (fun r => decide (key r = k))).map val).sum) := by
    simp only [groupbySum]
    exact map_snd_map_pair _ _
  rw [h1, ((List.perm_insertionSort (fun a b => a ≤ b) ((df.map key).dedup)).map _).sum_eq]
  exact filter_sum_partition df key val _ (List.nodup_dedup _)
    (fun r hr => List.mem_dedup.mpr (List.mem_map.mpr ⟨r, hr, rfl⟩))

/-- On a non-empty filtered DataFrame, `update_dashboard` takes the
recomputation branch. -/
theorem update_dashboard_nonempty (df : List Row) (ms rs : List String) (c : Option String)
    (h : filterStep df ms rs c ≠ []) :
    update_dashboard df ms rs c =
      { kpi_sales := fmtThousands (total_sales (filterStep df ms rs c)),
        kpi_price := "$" ++ fmtFloat1 (avg_price (filterStep df ms rs c)) ++ "k",
        kpi_success := fmtFloat1 (success_rate (filterStep df ms rs c)) ++ "%",
        fig_trend := Fig.line "Sales Volume Trend Over Time"
          (trend_data (filterStep df ms rs c)),
        fig_category := Fig.bar "Average Price by Sales Category (k)"
          (category_data (filterStep df ms rs c)),
        fig_heatmap := Fig.heat "Sales Volume Heatmap by Region and Manufacturer"
          (heatmap_data (filterStep df ms rs c)),
        fig_success := Fig.pie "Sales Classification Distribution (Target Variable)"
          (success_counts (filterStep df ms rs c)) ["#4CAF50", "#F44336"] } := by
  have hfe : (filterStep df ms rs c).isEmpty = false := by
    rcases hh : (filterStep df ms rs c).isEmpty
    · rfl
    · exact absurd (List.isEmpty_iff.mp hh) h
  simp [update_dashboard, hfe]

/-- The sum of a column whose entries are all 0 or 1 lies between 0 and the
number of rows. -/
theorem sum_binary_bounds (l : List Row)
    (hb : ∀ r ∈ l, r.Is_Success = 0 ∨ r.Is_Success = 1) :
    0 ≤ (l.map (fun r => r.Is_Success)).sum ∧
      (l.map (fun r => r.Is_Success)).sum ≤ (l.length : ℚ) := by
  induction l with
  | nil => simp
  | cons a l ih =>
    obtain ⟨ih1, ih2⟩ := ih (fun r hr => hb r (List.mem_cons_of_mem a hr))
    rcases hb a (List.mem_cons_self a l) with h | h <;>
      simp only [List.map_cons, List.sum_cons, List.length_cons, h] <;>
      push_cast <;>
      constructor <;> linarith

/-! The claims. -/

/-- C1: for every dataset, manufacturer selection, region selection and
category choice `s` (a choice actually made, i.e. a non-empty string — the
degenerate falsy selections are claim C10's subject), the filter step of
`update_dashboard` returns a subset (here even a sublist) of the dataset's
rows, and a row is retained iff its `Manufacturer` is selected, its `Region`
is selected, and `s = "All"` or its `Sales_Category` equals `s`. -/
theorem C1_filter_membership (df : List Row) (ms rs : List String) (s : String)
    (hs : s ≠ "") :
    (filterStep df ms rs (some s)).Sublist df ∧
    ∀ r : Row, r ∈ filterStep df ms rs (some s) ↔
      r ∈ df ∧ r.Manufacturer ∈ ms ∧ r.Region ∈ rs ∧ (s = "All" ∨ r.Sales_Category = s) := by
  by_cases hAll : s = "All"
  · subst hAll
    constructor
    · have h : filterStep df ms rs (some "All")
          = df.filter (fun r => decide (r.Manufacturer ∈ ms) && decide (r.Region ∈ rs)) := by
        simp [filterStep, truthy]
      rw [h]
      exact List.filter_sublist df
    · intro r
      simp [filterStep, truthy, List.mem_filter, and_assoc]
  · have hcond : (truthy (some s) && decide ((some s : Option String) ≠ some "All")) = true := by
      simp [truthy, hs, hAll]
    constructor
    · simp only [filterStep, hcond, if_true]
      exact (List.filter_sublist _).trans (List.filter_sublist _)
    · intro r
      simp only [filterStep, hcond, if_true, List.mem_filter, Bool.and_eq_true,
        decide_eq_true_eq, Option.some.injEq]
      simp [hAll, and_assoc, eq_comm]

/-- Witness for C1 at the scenario dataset with category "Low". -/
theorem C1_filter_membership_witness :
    rowT2 ∈ filterStep sampleDF ["Toyota", "Honda"] ["North", "South"] (some "Low") ↔
      rowT2 ∈ sampleDF ∧ rowT2.Manufacturer ∈ ["Toyota", "Honda"] ∧
        rowT2.Region ∈ ["North", "South"] ∧ ("Low" = "All" ∨ rowT2.Sales_Category = "Low") :=
  (C1_filter_membership sampleDF ["Toyota", "Honda"] ["North", "South"] "Low" (by decide)).2 rowT2

/-- C2: filtering with an empty manufacturer selection (any region selection,
any category) or with an empty region selection (any manufacturer selection,
any category) yields zero rows; there is no select-all fallback for an empty
selection. -/
theorem C2_empty_selection_zero_rows (df : List Row) (ms rs : List String)
    (c : Option String) :
    filterStep df [] rs c = [] ∧ filterStep df ms [] c = [] := by
  constructor <;> simp [filterStep]

/-- C3: whenever the filtered DataFrame has zero rows, `update_dashboard`
returns the placeholder outputs: total sales `"0"`, average price `"$0k"`,
success rate `"0.0%"`, and the empty no-data figure for all four charts. -/
theorem C3_empty_filtered_placeholder (df : List Row) (ms rs : List String)
    (c : Option String) (h : filterStep df ms rs c = []) :
    update_dashboard df ms rs c =
      { kpi_sales := "0", kpi_price := "$0k", kpi_success := "0.0%",
        fig_trend := noDataFig, fig_category := noDataFig,
        fig_heatmap := noDataFig, fig_success := noDataFig } := by
  simp [update_dashboard, h]

/-- Witness for C3: deselecting every manufacturer on the scenario dataset. -/
theorem C3_empty_filtered_placeholder_witness :
    update_dashboard sampleDF [] ["North", "South"] (some "All") =
      { kpi_sales := "0", kpi_price := "$0k", kpi_success := "0.0%",
        fig_trend := noDataFig, fig_category := noDataFig,
        fig_heatmap := noDataFig, fig_success := noDataFig } :=
  C3_empty_filtered_placeholder sampleDF [] ["North", "South"] (some "All") (by decide)

/-- C4: on a non-empty filtered DataFrame the KPI texts are: the thousands-
separated sum of `SalesVolume`; the mean of `Price_k` rounded (half to even)
to one decimal, rendered `"$<value>k"`; and the mean of `Is_Success` times
100, rendered to one decimal with a trailing `"%"`. -/
theorem C4_kpi_values (df : List Row) (ms rs : List String) (c : Option String)
    (h : filterStep df ms rs c ≠ []) :
    (update_dashboard df ms rs c).kpi_sales
      = fmtThousands (((filterStep df ms rs c).map (fun r => r.SalesVolume)).sum) ∧
    (update_dashboard df ms rs c).kpi_price
      = "$" ++ fmt1 (round1q ((((filterStep df ms rs c).map (fun r => r.Price_k)).sum
          / ((filterStep df ms rs c).length : ℚ)))) ++ "k" ∧
    (update_dashboard df ms rs c).kpi_success
      = fmt1 ((((filterStep df ms rs c).map (fun r => r.Is_Success)).sum
          / ((filterStep df ms rs c).length : ℚ)) * 100) ++ "%" := by
  have hu := update_dashboard_nonempty df ms rs c h
  have hlen : ((filterStep df ms rs c).length) ≠ 0 := by
    simpa [List.length_eq_zero] using h
  refine ⟨?_, ?_, ?_⟩ <;>
    simp [hu, total_sales, avg_price, success_rate, psum, pmean, round1, fmtFloat1,
      List.length_map, hlen]

/-- Witness for C4 at the scenario dataset with everything selected. -/
theorem C4_kpi_values_witness :
    (update_dashboard sampleDF ["Toyota", "Honda"] ["North", "South"] (some "All")).kpi_sales
      = fmtThousands (((filterStep sampleDF ["Toyota", "Honda"] ["North", "South"]
          (some "All")).map (fun r => r.SalesVolume)).sum) :=
  (C4_kpi_values sampleDF ["Toyota", "Honda"] ["North", "South"] (some "All") (by decide)).1

/-- C5: on a non-empty filtered DataFrame the trend figure is the line chart
of the per-period table: exactly one row per distinct `TimePeriod` value (the
key column is duplicate-free, and a period appears iff some filtered row has
it), each row holding the sum of `SalesVolume` over the rows with that period,
and the rows ordered by period. -/
theorem C5_trend_table (df : List Row) (ms rs : List String) (c : Option String)
    (h : filterStep df ms rs c ≠ []) :
    (update_dashboard df ms rs c).fig_trend
      = Fig.line "Sales Volume Trend Over Time" (trend_data (filterStep df ms rs c)) ∧
    ((trend_data (filterStep df ms rs c)).map Prod.fst).Nodup ∧
    (∀ k : String, k ∈ (trend_data (filterStep df ms rs c)).map Prod.fst ↔
      ∃ r ∈ filterStep df ms rs c, r.TimePeriod = k) ∧
    (∀ p ∈ trend_data (filterStep df ms rs c),
      p.2 = (((filterStep df ms rs c).filter (fun r => decide (r.TimePeriod = p.1))).map
        (fun r => r.SalesVolume)).sum) ∧
    ((trend_data (filterStep df ms rs c)).map Prod.fst).Sorted (fun a b => a ≤ b) := by
  refine ⟨?_, ?_, ?_, ?_, ?_⟩
  · rw [update_dashboard_nonempty df ms rs c h]
  · exact groupbySum_keys_nodup _ _ _
  · intro k
    exact groupbySum_keys_mem _ _ _ k
  · intro p hp
    exact groupbySum_values _ _ _ p hp
  · exact groupbySum_sorted _ _ _

/-- Witness for C5 at the scenario dataset with everything selected. -/
theorem C5_trend_table_witness :
    (update_dashboard sampleDF ["Toyota", "Honda"] ["North", "South"] (some "All")).fig_trend
      = Fig.line "Sales Volume Trend Over Time"
          (trend_data (filterStep sampleDF ["Toyota", "Honda"] ["North", "South"]
            (some "All"))) :=
  (C5_trend_table sampleDF ["Toyota", "Honda"] ["North", "South"] (some "All") (by decide)).1

/-- C6: for every dataset handed to the aggregation step, the sum of the
volume column of the trend table equals the sum of `SalesVolume` over all its
rows — grouping by `TimePeriod` is a partition, dropping and duplicating no
rows (this holds for any dataset, in particular whenever no category filter
was applied). -/
theorem C6_trend_sum_partition (df : List Row) :
    ((trend_data df).map Prod.snd).sum = (df.map (fun r => r.SalesVolume)).sum :=
  groupbySum_total df (fun r => r.TimePeriod) (fun r => r.SalesVolume)

/-- C7 (code bug): at a filtered dataset whose `Is_Success` values are
`[0, 0, 1]`, `value_counts` orders the slices by descending count, so the
pie descriptor lists `"Unsuccessful Sales"` first; since plotly assigns
`color_discrete_sequence` positionally, the failure slice is paired with the
first color `"#4CAF50"` (green) and the success slice with `"#F44336"` (red) —
contradicting the documented fixed mapping (success = green, failure = red,
components.py line 163). The label mapping and the counts themselves are as
documented. -/
theorem C7_pie_color_bug :
    (update_dashboard bugDF ["Toyota"] ["North"] (some "All")).fig_success
      = Fig.pie "Sales Classification Distribution (Target Variable)"
          [("Unsuccessful Sales", 2), ("Successful Sales", 1)] ["#4CAF50", "#F44336"] ∧
    pieAssignment ((update_dashboard bugDF ["Toyota"] ["North"] (some "All")).fig_success)
      = [("Unsuccessful Sales", "#4CAF50"), ("Successful Sales", "#F44336")] := by
  constructor <;> decide

/-- C8: on a non-empty filtered DataFrame all of whose `Is_Success` entries
are 0 or 1, the computed success rate exists and lies between 0 and 100. -/
theorem C8_success_rate_bounds (df : List Row) (ms rs : List String) (c : Option String)
    (h : filterStep df ms rs c ≠ [])
    (hb : ∀ r ∈ filterStep df ms rs c, r.Is_Success = 0 ∨ r.Is_Success = 1) :
    ∃ q : ℚ, success_rate (filterStep df ms rs c) = some q ∧ 0 ≤ q ∧ q ≤ 100 := by
  have hlen : ((filterStep df ms rs c).length) ≠ 0 := by
    simpa [List.length_eq_zero] using h
  have hlenq : (0 : ℚ) < ((filterStep df ms rs c).length : ℚ) := by
    exact_mod_cast Nat.pos_of_ne_zero hlen
  obtain ⟨h0, h1⟩ := sum_binary_bounds _ hb
  refine ⟨((filterStep df ms rs c).map (fun r => r.Is_Success)).sum
      / ((filterStep df ms rs c).length : ℚ) * 100, ?_, ?_, ?_⟩
  · simp [success_rate, pmean, List.length_map, hlen]
  · exact mul_nonneg (div_nonneg h0 hlenq.le) (by norm_num)
  · have hdiv : ((filterStep df ms rs c).map (fun r => r.Is_Success)).sum
        / ((filterStep df ms rs c).length : ℚ) ≤ 1 := (div_le_one hlenq).mpr h1
    linarith

/-- Witness for C8 at the scenario dataset with everything selected. -/
theorem C8_success_rate_bounds_witness :
    ∃ q : ℚ, success_rate (filterStep sampleDF ["Toyota", "Honda"] ["North", "South"]
        (some "All")) = some q ∧ 0 ≤ q ∧ q ≤ 100 :=
  C8_success_rate_bounds sampleDF ["Toyota", "Honda"] ["North", "South"] (some "All")
    (by decide) (by decide)

/-- C9 counterexample: when the dataset file is missing, the substituted
DataFrame is empty, and `create_kpi_cards` — which has no empty-DataFrame
guard — renders the static KPI cards as `("0", "$nank", "nan%")` (the pandas
mean of an empty column is NaN), not `("0", "$0k", "0.0%")` as claimed. -/
theorem C9_kpi_cards_counterexample :
    create_kpi_cards (startup_df none) = ("0", "$nank", "nan%") ∧
    create_kpi_cards (startup_df none) ≠ ("0", "$0k", "0.0%") := by
  have h : create_kpi_cards (startup_df none) = ("0", "$nank", "nan%") :=
    create_kpi_cards_empty
  refine ⟨h, ?_⟩
  rw [h]
  decide

/-- C9 amended: when the dataset file is missing at startup, the system
substitutes the empty seven-column DataFrame and continues; the static layout
KPI cards render `"0"`, `"$nank"`, `"nan%"`, and the no-data outputs `"0"`,
`"$0k"`, `"0.0%"` with placeholder figures come from the `update_dashboard`
callback, which on initial load runs with the empty dataset's (empty) default
selections and an empty filtered result. -/
theorem C9_amended_graceful_degradation :
    startup_df none = empty_fallback_df ∧
    create_kpi_cards (startup_df none) = ("0", "$nank", "nan%") ∧
    update_dashboard (startup_df none) [] [] (some "All")
      = { kpi_sales := "0", kpi_price := "$0k", kpi_success := "0.0%",
          fig_trend := noDataFig, fig_category := noDataFig,
          fig_heatmap := noDataFig, fig_success := noDataFig } := by
  exact ⟨rfl, create_kpi_cards_empty, by decide⟩

/-- C10: when the category selection is falsy (`None` or the empty string),
`update_dashboard` applies no category filter at all — the result is exactly
the manufacturer/region filter, the same as selecting `"All"`. -/
theorem C10_falsy_category_no_filter (df : List Row) (ms rs : List String) :
    filterStep df ms rs none
      = df.filter (fun r => decide (r.Manufacturer ∈ ms) && decide (r.Region ∈ rs)) ∧
    filterStep df ms rs (some "")
      = df.filter (fun r => decide (r.Manufacturer ∈ ms) && decide (r.Region ∈ rs)) ∧
    filterStep df ms rs none = filterStep df ms rs (some "All") ∧
    filterStep df ms rs (some "") = filterStep df ms rs (some "All") := by
  refine ⟨?_, ?_, ?_, ?_⟩ <;> simp [filterStep, truthy]

end AutoSales
